import Mathlib

/-!
Verification of the radiative-forcing waterfall-chart application
(`src/main.py`), a Dash app with a static CSV-loaded dataset and a single
filter-and-render callback `update_graph`.

The embedding below mirrors the source:
  * `ForcingRecord` models one row of the dataset (columns `Source`,
    `Measure`, `Contribution`);
  * `update_graph` models the callback: it filters the dataset with
    `df[df['Source'].isin(selected_sources)]` and builds a
    `go.Waterfall`-style figure whose per-bar arrays are the filtered
    columns, with the fixed colors and y-axis settings from the source;
  * `defaultSelection` and `checklistOptions` model the `dcc.Checklist`
    default `value` list and its `options` built from `df['Source'].unique()`;
  * `read_csv` / `startup` model the startup load `pd.read_csv("rf_data.csv")`
    over an abstract file system and parser.
-/

namespace RadiativeForcing

/-- One row of the dataset `rf_data.csv`: columns `Source` (forcing agent
label), `Measure` (waterfall bar kind string) and `Contribution`
(numeric value in W/m²). -/
structure ForcingRecord where
  Source : String
  Measure : String
  Contribution : Rat
deriving DecidableEq, Repr

/-- The chart specification built by `update_graph`: the fields of the
`go.Waterfall` trace together with the y-axis settings applied by
`fig.update_yaxes(visible=True, title_text='W/m<sup>2</sup>')`. -/
structure WaterfallFigure where
  name : String
  orientation : String
  measure : List String
  x : List String
  textposition : String
  text : List Rat
  y : List Rat
  increasingColor : String
  decreasingColor : String
  totalsColor : String
  totalsLineColor : String
  totalsLineWidth : Nat
  connectorColor : String
  yaxisVisible : Bool
  yaxisTitle : String
deriving DecidableEq, Repr

/-- The filtering step `df[df['Source'].isin(selected_sources)]`:
keep the rows whose `Source` is a member of the selection. -/
def filterBySource (df : List ForcingRecord) (selected_sources : List String) :
    List ForcingRecord :=
  df.filter (fun r => r.Source ∈ selected_sources)

/-- The callback `update_graph` of `src/main.py`: filter the dataset by
membership of `Source` in the selection, then build the waterfall figure
from the filtered columns. -/
def update_graph (df : List ForcingRecord) (selected_sources : List String) :
    WaterfallFigure :=
  let filtered_df := filterBySource df selected_sources
  { name := "20"
    orientation := "v"
    measure := filtered_df.map (fun r => r.Measure)
    x := filtered_df.map (fun r => r.Source)
    textposition := "inside"
    text := filtered_df.map (fun r => r.Contribution)
    y := filtered_df.map (fun r => r.Contribution)
    increasingColor := "#8F2738"
    decreasingColor := "#5E8DB0"
    totalsColor := "#ffb01f"
    totalsLineColor := "gold"
    totalsLineWidth := 3
    connectorColor := "#C0C0C0"
    yaxisVisible := true
    yaxisTitle := "W/m<sup>2</sup>" }

/-- The checklist's default `value` list from `src/main.py`. -/
def defaultSelection : List String :=
  ["Carbon Dioxide", "Methane", "Albedo (Land use)", "Solar irradiance", "Net total"]

/-- Helper for `pandasUnique`: first-occurrence deduplication, carrying the
set of labels already emitted. -/
def pandasUniqueAux (seen : List String) : List String → List String
  | [] => []
  | a :: l =>
    if a ∈ seen then pandasUniqueAux seen l
    else a :: pandasUniqueAux (a :: seen) l

/-- `pd.Series.unique`: the distinct values in order of first appearance. -/
def pandasUnique (l : List String) : List String :=
  pandasUniqueAux [] l

/-- The checklist `options`, built from `df['Source'].unique()`. -/
def checklistOptions (df : List ForcingRecord) : List String :=
  pandasUnique (df.map (fun r => r.Source))

/-- The two failure modes of the startup load. -/
inductive LoadError where
  | FileNotFound
  | ParseError
deriving DecidableEq, Repr

/-- Modelled from the spec: the behavior of `pd.read_csv` (library code, not
in `src/`) on a missing or malformed file — "produces an in-memory table of
Forcing Records or fails with a FileNotFound/ParseError if the file is
missing or malformed". The file system is an abstract map from paths to
contents and the CSV parser an abstract partial function. -/
def read_csv (fs : String → Option String)
    (parse : String → Option (List ForcingRecord)) (path : String) :
    Except LoadError (List ForcingRecord) :=
  match fs path with
  | none => Except.error LoadError.FileNotFound
  | some contents =>
    match parse contents with
    | none => Except.error LoadError.ParseError
    | some rows => Except.ok rows

/-- Modelled from the spec: process startup evaluates the module top level,
which performs `df = pd.read_csv("rf_data.csv")`; a load exception
propagates and startup fails with it ("a load failure is fatal to process
startup", no retry, no recovery). On success the loaded dataset is the
process-wide state. -/
def startup (fs : String → Option String)
    (parse : String → Option (List ForcingRecord)) :
    Except LoadError (List ForcingRecord) :=
  read_csv fs parse "rf_data.csv"

/-- The mutable environment visible to the callback: the module-level
dataset `df`. -/
structure Env where
  df : List ForcingRecord
deriving DecidableEq, Repr

/-- The callback as a state transformer on the environment: the body of
`update_graph` contains no assignment to `df` (it only binds the locals
`filtered_df` and `fig` and returns `fig`), so the environment after the
call is the environment before it. -/
def callbackStep (env : Env) (selected_sources : List String) :
    WaterfallFigure × Env :=
  (update_graph env.df selected_sources, env)

/-- A small concrete dataset used as input for witness theorems. -/
def sampleDf : List ForcingRecord :=
  [⟨"Carbon Dioxide", "relative", (168 : Rat) / 100⟩,
   ⟨"Methane", "relative", (97 : Rat) / 200⟩,
   ⟨"Albedo (Land use)", "relative", -(3 : Rat) / 20⟩,
   ⟨"Solar irradiance", "relative", (1 : Rat) / 20⟩,
   ⟨"Net total", "total", (229 : Rat) / 100⟩]

/-- Membership in `pandasUniqueAux seen l`: exactly the members of `l`
not already seen. -/
theorem mem_pandasUniqueAux (l : List String) :
    ∀ (seen : List String) (x : String),
      x ∈ pandasUniqueAux seen l ↔ x ∈ l ∧ x ∉ seen := by
  induction l with
  | nil => intro seen x; simp [pandasUniqueAux]
  | cons a l ih =>
    intro seen x
    by_cases ha : a ∈ seen
    · simp only [pandasUniqueAux, if_pos ha, ih, List.mem_cons]
      constructor
      · rintro ⟨hx, hns⟩; exact ⟨Or.inr hx, hns⟩
      · rintro ⟨hx | hx, hns⟩
        · exact absurd (hx ▸ ha) hns
        · exact ⟨hx, hns⟩
    · simp only [pandasUniqueAux, if_neg ha, List.mem_cons, ih]
      constructor
      · rintro (hx | ⟨hx, hns⟩)
        · exact ⟨Or.inl hx, hx ▸ ha⟩
        · refine ⟨Or.inr hx, fun hs => hns (Or.inr hs)⟩
      · rintro ⟨hx | hx, hns⟩
        · exact Or.inl hx
        · by_cases hxa : x = a
          · exact Or.inl hxa
          · exact Or.inr ⟨hx, fun hs => by
              rcases hs with h | h
              · exact hxa h
              · exact hns h⟩

/-- Membership in `pandasUnique l` is membership in `l`. -/
theorem mem_pandasUnique (l : List String) (x : String) :
    x ∈ pandasUnique l ↔ x ∈ l := by
  simp [pandasUnique, mem_pandasUniqueAux]

/-- The count of a row in a source-filtered dataset: its full multiplicity
when its `Source` is selected, zero otherwise. -/
theorem count_filterBySource (df : List ForcingRecord) (S : List String)
    (r : ForcingRecord) :
    (filterBySource df S).count r = if r.Source ∈ S then df.count r else 0 := by
  by_cases h : r.Source ∈ S
  · simp [filterBySource, List.count_filter, h]
  · simp only [h, if_false]
    refine List.count_eq_zero.mpr (fun hmem => ?_)
    have := List.of_mem_filter hmem
    simp [h] at this

/-- C1: the filtering step of `update_graph` keeps exactly the dataset rows
whose `Source` is in the selection: the filtered list is a sublist of the
dataset (original order, no duplication), and each row occurs in it with its
full dataset multiplicity when its `Source` is selected and not at all
otherwise. -/
theorem update_graph_filter_exact (df : List ForcingRecord) (S : List String) :
    List.Sublist (filterBySource df S) df ∧
    ∀ r : ForcingRecord,
      (filterBySource df S).count r = if r.Source ∈ S then df.count r else 0 :=
  ⟨List.filter_sublist df, fun r => count_filterBySource df S r⟩

/-- C2: the figure returned by `update_graph` has one bar per filtered row:
the bar-kind array is the filtered `Measure` column, the height and text
arrays are the filtered `Contribution` column, the x array is the filtered
`Source` column, and the increasing, decreasing and totals bars carry three
fixed pairwise-distinct colors while connectors carry one fixed color. -/
theorem update_graph_bars (df : List ForcingRecord) (S : List String) :
    (update_graph df S).measure = (filterBySource df S).map (fun r => r.Measure) ∧
    (update_graph df S).y = (filterBySource df S).map (fun r => r.Contribution) ∧
    (update_graph df S).text = (filterBySource df S).map (fun r => r.Contribution) ∧
    (update_graph df S).x = (filterBySource df S).map (fun r => r.Source) ∧
    (update_graph df S).measure.length = (filterBySource df S).length ∧
    (update_graph df S).increasingColor = "#8F2738" ∧
    (update_graph df S).decreasingColor = "#5E8DB0" ∧
    (update_graph df S).totalsColor = "#ffb01f" ∧
    (update_graph df S).increasingColor ≠ (update_graph df S).decreasingColor ∧
    (update_graph df S).increasingColor ≠ (update_graph df S).totalsColor ∧
    (update_graph df S).decreasingColor ≠ (update_graph df S).totalsColor ∧
    (update_graph df S).connectorColor = "#C0C0C0" := by
  refine ⟨rfl, rfl, rfl, rfl, ?_,
    rfl, rfl, rfl,
    (by decide : ("#8F2738" : String) ≠ "#5E8DB0"),
    (by decide : ("#8F2738" : String) ≠ "#ffb01f"),
    (by decide : ("#5E8DB0" : String) ≠ "#ffb01f"), rfl⟩
  simp [update_graph]

/-- C3: `update_graph` is a pure deterministic function of the dataset and
the selection: two invocations with equal dataset and equal selection return
identical chart specifications. -/
theorem update_graph_deterministic (df1 df2 : List ForcingRecord)
    (S1 S2 : List String) (hdf : df1 = df2) (hS : S1 = S2) :
    update_graph df1 S1 = update_graph df2 S2 := by
  subst hdf; subst hS; rfl

/-- Witness for C3 at the sample dataset and the default selection. -/
theorem update_graph_deterministic_witness :
    update_graph sampleDf defaultSelection = update_graph sampleDf defaultSelection :=
  update_graph_deterministic sampleDf sampleDf defaultSelection defaultSelection rfl rfl

/-- C4: on a selection matching no dataset row (in particular the empty
selection) `update_graph` returns normally a figure with zero bars: all four
per-bar arrays are empty. -/
theorem update_graph_no_match_empty (df : List ForcingRecord) (S : List String)
    (h : ∀ r ∈ df, r.Source ∉ S) :
    (update_graph df S).measure = [] ∧ (update_graph df S).x = [] ∧
    (update_graph df S).text = [] ∧ (update_graph df S).y = [] := by
  have hf : filterBySource df S = [] := by
    refine List.filter_eq_nil_iff.mpr (fun r hr => ?_)
    simpa using h r hr
  refine ⟨?_, ?_, ?_, ?_⟩ <;> simp [update_graph, hf]

/-- Witness for C4: the empty selection on the sample dataset yields a
figure with empty bar arrays. -/
theorem update_graph_no_match_empty_witness :
    (∀ r ∈ sampleDf, r.Source ∉ ([] : List String)) ∧
    ((update_graph sampleDf []).measure = [] ∧ (update_graph sampleDf []).x = [] ∧
     (update_graph sampleDf []).text = [] ∧ (update_graph sampleDf []).y = []) :=
  ⟨by simp, update_graph_no_match_empty sampleDf [] (by simp)⟩

/-- C5: a load failure is fatal to startup: if the data file is missing,
startup fails with `FileNotFound`; if it is present but unparseable, startup
fails with `ParseError`. No recovery path exists. -/
theorem startup_fails_on_load_failure (fs : String → Option String)
    (parse : String → Option (List ForcingRecord)) :
    (fs "rf_data.csv" = none →
      startup fs parse = Except.error LoadError.FileNotFound) ∧
    (∀ c, fs "rf_data.csv" = some c → parse c = none →
      startup fs parse = Except.error LoadError.ParseError) := by
  constructor
  · intro h
    simp [startup, read_csv, h]
  · intro c hc hp
    simp [startup, read_csv, hc, hp]

/-- Witness for C5: a file system without the data file makes startup fail
with `FileNotFound`; one with unparseable contents makes it fail with
`ParseError`. -/
theorem startup_fails_on_load_failure_witness :
    startup (fun _ => none) (fun _ => none) = Except.error LoadError.FileNotFound ∧
    startup (fun _ => some "bad") (fun _ => none) = Except.error LoadError.ParseError :=
  ⟨(startup_fails_on_load_failure (fun _ => none) (fun _ => none)).1 rfl,
   (startup_fails_on_load_failure (fun _ => some "bad") (fun _ => none)).2 "bad" rfl rfl⟩

/-- C6 counterexample: at a concrete dataset and selection, the figure's
y-axis title string is not the literal "W/m²": the source sets
`title_text='W/m<sup>2</sup>'`, HTML markup rather than the Unicode
superscript. -/
theorem update_graph_yaxis_title_not_unicode :
    (update_graph sampleDf defaultSelection).yaxisVisible = true ∧
    (update_graph sampleDf defaultSelection).yaxisTitle ≠ "W/m²" :=
  ⟨rfl, by decide⟩

/-- C6 (amended): for every dataset and selection the figure's vertical axis
is visible and its title text is exactly the string "W/m<sup>2</sup>"
(HTML markup which a browser renders as W/m²). -/
theorem update_graph_yaxis (df : List ForcingRecord) (S : List String) :
    (update_graph df S).yaxisVisible = true ∧
    (update_graph df S).yaxisTitle = "W/m<sup>2</sup>" :=
  ⟨rfl, rfl⟩

/-- C7: the checklist's default selection is exactly the five fixed labels
(no duplicates, membership exactly that set), and `update_graph` on the
default selection has one bar per dataset row whose `Source` is in it: the
height array is the filtered `Contribution` column and the number of bars
equals the count of dataset rows with selected `Source`. -/
theorem default_selection_graph (df : List ForcingRecord) :
    (defaultSelection.Nodup ∧
      ∀ x, x ∈ defaultSelection ↔
        (x = "Carbon Dioxide" ∨ x = "Methane" ∨ x = "Albedo (Land use)" ∨
         x = "Solar irradiance" ∨ x = "Net total")) ∧
    (update_graph df defaultSelection).y =
      (filterBySource df defaultSelection).map (fun r => r.Contribution) ∧
    (update_graph df defaultSelection).y.length =
      df.countP (fun r => decide (r.Source ∈ defaultSelection)) := by
  refine ⟨⟨by decide, fun x => by simp [defaultSelection]⟩, rfl, ?_⟩
  simp only [update_graph, filterBySource, List.map_map, List.length_map]
  exact (List.countP_eq_length_filter _ df).symm

/-- C8: selecting all unique `Source` values is the identity on the row
sequence: the filter keeps every dataset row in original order, and the
figure has one bar per dataset row with the unfiltered columns. -/
theorem update_graph_all_sources (df : List ForcingRecord) :
    filterBySource df (checklistOptions df) = df ∧
    (update_graph df (checklistOptions df)).x = df.map (fun r => r.Source) ∧
    (update_graph df (checklistOptions df)).measure = df.map (fun r => r.Measure) ∧
    (update_graph df (checklistOptions df)).y = df.map (fun r => r.Contribution) := by
  have hf : filterBySource df (checklistOptions df) = df := by
    refine List.filter_eq_self.mpr (fun r hr => ?_)
    simp only [decide_eq_true_eq, checklistOptions]
    exact (mem_pandasUnique _ _).mpr (List.mem_map_of_mem _ hr)
  exact ⟨hf, by simp [update_graph, hf], by simp [update_graph, hf],
    by simp [update_graph, hf]⟩

/-- C9: the callback does not mutate the dataset: one invocation returns the
figure of `update_graph` and leaves the environment unchanged, and any
sequence of invocations leaves the dataset equal to its load-time value. -/
theorem callbackStep_frame (env : Env) (S : List String) :
    (callbackStep env S).2 = env ∧
    (callbackStep env S).1 = update_graph env.df S ∧
    ∀ (etc : List (List String)),
      etc.foldl (fun e sel => (callbackStep e sel).2) env = env := by
  refine ⟨rfl, rfl, fun etc => ?_⟩
  induction etc with
  | nil => rfl
  | cons s ss ih => simp only [List.foldl_cons, callbackStep]; exact ih

/-- C10: `update_graph` depends only on which dataset `Source` values are in
the selection: two selections agreeing on membership of every row's `Source`
(hence in particular reorderings, duplications, and additions of labels
absent from the dataset) produce identical chart specifications. -/
theorem update_graph_membership_only (df : List ForcingRecord)
    (S1 S2 : List String)
    (h : ∀ r ∈ df, (r.Source ∈ S1 ↔ r.Source ∈ S2)) :
    update_graph df S1 = update_graph df S2 := by
  have hf : filterBySource df S1 = filterBySource df S2 :=
    List.filter_congr (fun r hr => decide_eq_decide.mpr (h r hr))
  simp [update_graph, hf]

/-- Witness for C10: a reordered, duplicated selection with an extra label
absent from the sample dataset produces the same figure as its cleaned-up
version. -/
theorem update_graph_membership_only_witness :
    (∀ r ∈ sampleDf,
      (r.Source ∈ ["Methane", "Methane", "Water vapour", "Carbon Dioxide"] ↔
       r.Source ∈ ["Carbon Dioxide", "Methane"])) ∧
    update_graph sampleDf ["Methane", "Methane", "Water vapour", "Carbon Dioxide"] =
      update_graph sampleDf ["Carbon Dioxide", "Methane"] :=
  ⟨by decide, update_graph_membership_only sampleDf
    ["Methane", "Methane", "Water vapour", "Carbon Dioxide"]
    ["Carbon Dioxide", "Methane"] (by decide)⟩

end RadiativeForcing
